import Mathlib

/-!
Verification development for the synthetic-data-home-diy-repair pipeline.

Shallow embedding of the Python sources:
  * `src/diy_repair/models.py`            (QARecord schema and structural validation)
  * `src/diy_repair/validation_phase.py`  (DIYRepairValidator.validate_structure)
  * `src/diy_repair/failure_labeling.py`  (LLMJudge scoring)
  * `src/diy_repair/failure_analysis.py`  (FailureAnalyzer)
  * `src/diy_repair/correction_phase.py`  (DIYRepairCorrector)
  * `src/scripts/merge_corrected_qa.py`   (merge-back protocol)

Modelling conventions: the OpenAI gateway is an environment parameter
(`Except` value: exception text or response text); `json.loads` is an
environment-supplied parse outcome; Python floats are modelled by exact
rationals; Python `str.strip()` is modelled over ASCII whitespace.
-/

/-! ## Python `str.strip()` -/

/-- Characters removed by Python `str.strip()` (ASCII whitespace subset). -/
def isPySpace (c : Char) : Bool :=
  c == ' ' || c == '\t' || c == '\n' || c == '\r' || c == '\x0b' || c == '\x0c'

def stripLeftL (l : List Char) : List Char := l.dropWhile isPySpace

def stripRightL (l : List Char) : List Char := (l.reverse.dropWhile isPySpace).reverse

def stripL (l : List Char) : List Char := stripRightL (stripLeftL l)

/-- Model of Python `s.strip()`. -/
def pyStrip (s : String) : String := ⟨stripL s.data⟩

theorem dropWhile_self (p : Char → Bool) (l : List Char) :
    (l.dropWhile p).dropWhile p = l.dropWhile p := by
  induction l with
  | nil => rfl
  | cons a t ih =>
    cases hpa : p a with
    | true => simpa [List.dropWhile_cons, hpa] using ih
    | false => simp [List.dropWhile_cons, hpa]

theorem dropWhile_head_false (p : Char → Bool) (l : List Char) (a : Char) (t : List Char)
    (h : l.dropWhile p = a :: t) : p a = false := by
  induction l with
  | nil => simp at h
  | cons b u ih =>
    cases hpb : p b with
    | true =>
      rw [List.dropWhile_cons, if_pos (by simp [hpb])] at h
      exact ih h
    | false =>
      rw [List.dropWhile_cons, if_neg (by simp [hpb])] at h
      cases h
      exact hpb

theorem dropWhile_suffix' (p : Char → Bool) (l : List Char) : l.dropWhile p <:+ l := by
  induction l with
  | nil => simp
  | cons a t ih =>
    cases hpa : p a with
    | true =>
      rw [List.dropWhile_cons, if_pos (by simp [hpa])]
      exact ih.trans (List.suffix_cons a t)
    | false =>
      rw [List.dropWhile_cons, if_neg (by simp [hpa])]

theorem stripRightL_prefix (l : List Char) : stripRightL l <+: l := by
  have h := dropWhile_suffix' isPySpace l.reverse
  have h2 : (l.reverse.dropWhile isPySpace).reverse <+: l.reverse.reverse :=
    List.reverse_prefix.mpr h
  simpa [stripRightL] using h2

theorem stripRightL_idem (l : List Char) : stripRightL (stripRightL l) = stripRightL l := by
  simp [stripRightL, List.reverse_reverse, dropWhile_self]

theorem stripL_idem (l : List Char) : stripL (stripL l) = stripL l := by
  unfold stripL
  have key : stripLeftL (stripRightL (stripLeftL l)) = stripRightL (stripLeftL l) := by
    cases hsr : stripRightL (stripLeftL l) with
    | nil => simp [stripLeftL]
    | cons a t =>
      have hpre : stripRightL (stripLeftL l) <+: stripLeftL l := stripRightL_prefix _
      rw [hsr] at hpre
      obtain ⟨r, hr⟩ := hpre
      have ha : isPySpace a = false :=
        dropWhile_head_false isPySpace l a (t ++ r) (by simpa [stripLeftL] using hr.symm)
      simp [stripLeftL, List.dropWhile_cons, ha]
  rw [key, stripRightL_idem]

theorem pyStrip_idem (s : String) : pyStrip (pyStrip s) = pyStrip s := by
  show (⟨stripL (stripL s.data)⟩ : String) = ⟨stripL s.data⟩
  rw [stripL_idem]

theorem stripL_length_le (l : List Char) : (stripL l).length ≤ l.length := by
  have h1 : (stripLeftL l).length ≤ l.length := (dropWhile_suffix' _ _).sublist.length_le
  have h2 : (stripRightL (stripLeftL l)).length ≤ (stripLeftL l).length := by
    simpa [stripRightL] using
      (dropWhile_suffix' isPySpace (stripLeftL l).reverse).sublist.length_le
  exact le_trans h2 h1

theorem pyStrip_length_le (s : String) : (pyStrip s).length ≤ s.length :=
  stripL_length_le s.data

theorem pyStrip_ne_empty_of_self {s : String} (h : pyStrip s ≠ "") :
    pyStrip (pyStrip s) ≠ "" := by
  rw [pyStrip_idem]; exact h

/-! ## Python `int()` parsing (ASCII; sign, digits, underscores between digits) -/

def digitVal (c : Char) : Nat := c.toNat - 48

def pyParseDigitsAux : List Char → Nat → Option Nat
  | [], acc => some acc
  | '_' :: rest, acc =>
    match rest with
    | c :: rest2 =>
      if c.isDigit then pyParseDigitsAux rest2 (acc * 10 + digitVal c) else none
    | [] => none
  | c :: rest, acc =>
    if c.isDigit then pyParseDigitsAux rest (acc * 10 + digitVal c) else none

def pyParseNat : List Char → Option Nat
  | [] => none
  | c :: rest => if c.isDigit then pyParseDigitsAux rest (digitVal c) else none

/-- Model of Python `int(s)` for a text argument (surrounding whitespace stripped,
optional sign, decimal digits, single underscores between digits). -/
def pyParseInt (s : String) : Option Int :=
  match stripL s.data with
  | '+' :: rest => (pyParseNat rest).map (fun n => (n : Int))
  | '-' :: rest => (pyParseNat rest).map (fun n => -(n : Int))
  | cs => (pyParseNat cs).map (fun n => (n : Int))

/-! ## `src/diy_repair/models.py` -/

/-- JSON object fields as supplied to `DIYRepairQA(**data)`: the seven schema
fields with their JSON types (wrong-typed or missing-field inputs are outside
the modelled domain). -/
structure RawQA where
  question : String
  answer : String
  equipment_problem : String
  tools_required : List String
  steps : List String
  safety_info : String
  tips : String
deriving Repr, DecidableEq

/-- A constructed `DIYRepairQA` pydantic instance (validators already applied,
so stored strings and list items are the stripped values). -/
structure DIYRepairQA where
  question : String
  answer : String
  equipment_problem : String
  tools_required : List String
  steps : List String
  safety_info : String
  tips : String
deriving Repr, DecidableEq

/-- Pydantic validation of one string field: `Field(min_length, max_length)`
constraints run on the raw value; the custom `validate_text_fields` validator
(reject blank-after-strip) runs only if the constraints pass. -/
def strFieldErrors (name : String) (v : String) (minLen maxLen : Nat) : List String :=
  if v.length < minLen then
    [name ++ ": ensure this value has at least " ++ toString minLen ++ " characters"]
  else if v.length > maxLen then
    [name ++ ": ensure this value has at most " ++ toString maxLen ++ " characters"]
  else if pyStrip v = "" then
    [name ++ ": Text fields cannot be empty or just whitespace"]
  else []

/-- Pydantic validation of one list field: `min_items`/`max_items` constraints
on the raw list, then the custom validator rejecting blank-after-strip items. -/
def listFieldErrors (name : String) (v : List String) (minIt maxIt : Nat)
    (blankMsg : String) : List String :=
  if v.length < minIt then
    [name ++ ": ensure this value has at least " ++ toString minIt ++ " items"]
  else if v.length > maxIt then
    [name ++ ": ensure this value has at most " ++ toString maxIt ++ " items"]
  else if v.any (fun t => pyStrip t = "") then
    [name ++ ": " ++ blankMsg]
  else []

/-- All field validation failures of `DIYRepairQA(**data)`, collected per field
in declaration order (pydantic checks every field; it does not stop at the
first failing field). -/
def pydanticErrors (d : RawQA) : List String :=
  strFieldErrors "question" d.question 10 500
    ++ strFieldErrors "answer" d.answer 20 2000
    ++ strFieldErrors "equipment_problem" d.equipment_problem 5 200
    ++ listFieldErrors "tools_required" d.tools_required 1 15 "Tools cannot be empty strings"
    ++ listFieldErrors "steps" d.steps 2 20 "Steps cannot be empty strings"
    ++ strFieldErrors "safety_info" d.safety_info 10 500
    ++ strFieldErrors "tips" d.tips 10 500

/-- `DIYRepairQA(**data)`: on success the stored values are the stripped ones
(each validator returns `v.strip()` / the list of stripped items); on failure
pydantic raises ONE `ValidationError` whose message aggregates every field
failure. -/
def mkDIYRepairQA (d : RawQA) : Except String DIYRepairQA :=
  match pydanticErrors d with
  | [] =>
    .ok { question := pyStrip d.question
          answer := pyStrip d.answer
          equipment_problem := pyStrip d.equipment_problem
          tools_required := d.tools_required.map pyStrip
          steps := d.steps.map pyStrip
          safety_info := pyStrip d.safety_info
          tips := pyStrip d.tips }
  | errs =>
    .error (toString errs.length ++ " validation errors for DIYRepairQA: "
      ++ String.intercalate "; " errs)

/-- `models.validate_json_structure(json_str)`. The `json.loads` call is an
environment-supplied outcome: `.error msg` for a `JSONDecodeError` with message
`msg`, `.ok d` for a successful parse to object `d`. -/
def validate_json_structure (parsed : Except String RawQA) :
    Bool × Option DIYRepairQA × List String :=
  match parsed with
  | .error e => (false, none, ["Invalid JSON format: " ++ e])
  | .ok d =>
    match mkDIYRepairQA d with
    | .ok qa => (true, some qa, [])
    | .error e => (false, none, ["Validation error: " ++ e])

/-- `models.GenerationResult`. -/
structure GenerationResult where
  trace_id : String
  qa_pair : Option DIYRepairQA
  raw_response : String
  is_valid : Bool
  validation_errors : List String
  generation_timestamp : String
deriving Repr, DecidableEq

/-! ## `src/diy_repair/validation_phase.py` -/

/-- `DIYRepairValidator.validate_structure(result)`: the nine re-checks in
source order. -/
def validate_structure (result : GenerationResult) : Bool × List String :=
  if result.is_valid = false then (false, result.validation_errors)
  else
    match result.qa_pair with
    | none => (false, ["No valid Q&A pair generated"])
    | some qa =>
      let errors :=
        (if pyStrip qa.question = "" then ["Question is empty or whitespace only"] else [])
        ++ (if pyStrip qa.answer = "" then ["Answer is empty or whitespace only"] else [])
        ++ (if pyStrip qa.equipment_problem = "" then
              ["Equipment problem is empty or whitespace only"] else [])
        ++ (if pyStrip qa.safety_info = "" then ["Safety info is empty or whitespace only"] else [])
        ++ (if pyStrip qa.tips = "" then ["Tips is empty or whitespace only"] else [])
        ++ (if qa.tools_required = [] then ["Tools required list is empty"] else [])
        ++ (if qa.steps = [] then ["Steps list is empty"] else [])
        ++ (if qa.tools_required.any (fun t => pyStrip t = "") then
              ["Tools required contains empty items"] else [])
        ++ (if qa.steps.any (fun s => pyStrip s = "") then
              ["Steps contains empty items"] else [])
      (errors.length = 0, errors)

/-! ## `src/diy_repair/failure_labeling.py` -/

/-- The closed taxonomy of six failure modes, in declaration order. -/
inductive FailureModeName where
  | incomplete_answer
  | safety_violations
  | unrealistic_tools
  | overcomplicated_solution
  | missing_context
  | poor_quality_tips
deriving Repr, DecidableEq

open FailureModeName in
/-- `FAILURE_MODE_NAMES` (declaration order of `FailureModeDefinitions.get_failure_modes`). -/
def FAILURE_MODE_NAMES : List FailureModeName :=
  [incomplete_answer, safety_violations, unrealistic_tools,
   overcomplicated_solution, missing_context, poor_quality_tips]

/-- One gateway call outcome: `.error e` when `chat.completions.create` (or
anything else inside the `try` block) raises an exception with text `e`,
`.ok content` when it returns message content `content`. -/
abbrev GatewayOutcome := Except String String

/-- `LLMJudge.evaluate_single_failure_mode`: parse the stripped response as an
integer; non-integers and integers outside {0,1} score 1; an exception scores 1
with the error text as raw response. -/
def evaluate_single_failure_mode (gw : GatewayOutcome) : Nat × String :=
  match gw with
  | .error e => (1, "Error: " ++ e)
  | .ok content =>
    let raw := pyStrip content
    match pyParseInt raw with
    | some n => (if n = 0 ∨ n = 1 then n.toNat else 1, raw)
    | none => (1, raw)

/-- The row produced by `LLMJudge.evaluate_qa_pair` (trace id, denormalized QA
fields, per-mode scores and raw responses, aggregates). -/
structure JudgeRecord where
  trace_id : String
  qa : DIYRepairQA
  scores : FailureModeName → Nat
  responses : FailureModeName → String
  overall_failure : Nat
  failure_count : Nat

/-- `LLMJudge.evaluate_qa_pair`: one independent gateway call per mode
(`gateway` maps each mode to its call outcome), summed into `failure_count`;
`overall_failure` is 1 iff `failure_count > 0`. -/
def evaluate_qa_pair (gateway : FailureModeName → GatewayOutcome)
    (qa : DIYRepairQA) (trace_id : String) : JudgeRecord :=
  let score := fun m => (evaluate_single_failure_mode (gateway m)).1
  let raw := fun m => (evaluate_single_failure_mode (gateway m)).2
  let fc := (FAILURE_MODE_NAMES.map score).sum
  { trace_id := trace_id
    qa := qa
    scores := score
    responses := raw
    overall_failure := if fc > 0 then 1 else 0
    failure_count := fc }

/-! ## `src/diy_repair/failure_analysis.py` -/

/-- One row of the labeled dataframe, restricted to the columns the analyzer
reads: `overall_failure` and the six per-mode flag columns (integers). -/
structure JudgeRow where
  overall_failure : ℤ
  flags : FailureModeName → ℤ

/-- `config.TARGET_FAILURE_RATE = 0.0632` (exact rational model of the float). -/
def TARGET_FAILURE_RATE : ℚ := 632 / 10000

/-- Pandas column mean, modelled exactly over the rationals. On an empty
dataframe pandas yields NaN (and every NaN comparison is False); the claims
below are therefore stated for non-empty inputs, where the rational model and
the float model order values identically up to rounding. -/
def colMean (xs : List ℤ) : ℚ := ((xs.map (fun x => (x : ℚ))).sum) / xs.length

/-- Stable insertion, placing `x` before the first element whose key is not
greater: this realises Python `sorted(..., key=key, reverse=True)`, which is a
stable descending sort. -/
def insertByKeyDesc {α β : Type} [LinearOrder β] (key : α → β) (x : α) :
    List α → List α
  | [] => [x]
  | y :: rest => if key y ≤ key x then x :: y :: rest else y :: insertByKeyDesc key x rest

/-- Stable descending sort by key (model of `sorted(modes, key=..., reverse=True)`). -/
def sortByKeyDesc {α β : Type} [LinearOrder β] (key : α → β) : List α → List α
  | [] => []
  | x :: rest => insertByKeyDesc key x (sortByKeyDesc key rest)

/-- The dictionary returned by `FailureAnalyzer.generate_failure_summary`. -/
structure FailureSummary where
  total_samples : Nat
  overall_failure_rate : ℚ
  overall_success_rate : ℚ
  target_failure_rate : ℚ
  target_met : Bool
  failure_mode_rates : FailureModeName → ℚ
  failure_mode_counts : FailureModeName → ℤ
  most_common_failures : List FailureModeName
  least_common_failures : List FailureModeName

/-- `FailureAnalyzer.generate_failure_summary`. -/
def generate_failure_summary (df : List JudgeRow) : FailureSummary :=
  let overall := colMean (df.map (fun r => r.overall_failure))
  let rate := fun m => colMean (df.map (fun r => r.flags m))
  let count := fun m => (df.map (fun r => r.flags m)).sum
  let sorted_modes := sortByKeyDesc rate FAILURE_MODE_NAMES
  { total_samples := df.length
    overall_failure_rate := overall
    overall_success_rate := 1 - overall
    target_failure_rate := TARGET_FAILURE_RATE
    target_met := decide (overall < TARGET_FAILURE_RATE)
    failure_mode_rates := rate
    failure_mode_counts := count
    most_common_failures := sorted_modes.take 3
    least_common_failures := sorted_modes.drop (sorted_modes.length - 3) }

/-- `mode.replace('_', ' ').title()` for the six fixed mode names. -/
def displayTitle : FailureModeName → String
  | .incomplete_answer => "Incomplete Answer"
  | .safety_violations => "Safety Violations"
  | .unrealistic_tools => "Unrealistic Tools"
  | .overcomplicated_solution => "Overcomplicated Solution"
  | .missing_context => "Missing Context"
  | .poor_quality_tips => "Poor Quality Tips"

/-- `mode.replace('_', ' ')` for the six fixed mode names. -/
def displaySpaces : FailureModeName → String
  | .incomplete_answer => "incomplete answer"
  | .safety_violations => "safety violations"
  | .unrealistic_tools => "unrealistic tools"
  | .overcomplicated_solution => "overcomplicated solution"
  | .missing_context => "missing context"
  | .poor_quality_tips => "poor quality tips"

/-- `FailureAnalyzer._pattern_to_name`. -/
def patternToName (flags : FailureModeName → ℤ) : String :=
  if FAILURE_MODE_NAMES.all (fun m => flags m = 0) then "No Failures"
  else String.intercalate " + "
    ((FAILURE_MODE_NAMES.filter (fun m => flags m = 1)).map displayTitle)

/-- Append an index to a pattern group, preserving dict insertion order
(`patterns[pattern_name].append(idx)` with creation on first sight). -/
def groupAppend (d : List (String × List Nat)) (k : String) (i : Nat) :
    List (String × List Nat) :=
  if d.any (fun p => p.1 = k) then
    d.map (fun p => if p.1 = k then (p.1, p.2 ++ [i]) else p)
  else d ++ [(k, [i])]

/-- `FailureAnalyzer.identify_failure_patterns`: group row indices by pattern
name in insertion order, then stable-sort groups by size descending. -/
def identify_failure_patterns (df : List JudgeRow) : List (String × List Nat) :=
  let grouped := (df.enum).foldl
    (fun d p => groupAppend d (patternToName p.2.flags) p.1) []
  sortByKeyDesc (fun x => x.2.length) grouped

/-- The single-quote character, written via its code point. -/
def sqChar : String := String.singleton (Char.ofNat 39)

/-- Round half to even (Python float formatting rounding mode, over ℚ). -/
def roundHalfEven (x : ℚ) : ℤ :=
  let f := ⌊x⌋
  let frac := x - f
  if frac < 1/2 then f
  else if frac > 1/2 then f + 1
  else if f % 2 = 0 then f else f + 1

/-- Python `"{:.1%}".format(x)` modelled over ℚ. -/
def fmtPercent1 (q : ℚ) : String :=
  let n := roundHalfEven (q * 1000)
  let core := fun (m : ℤ) => toString (m / 10) ++ "." ++ toString (m % 10) ++ "%"
  if n < 0 then "-" ++ core (-n) else core n

/-- Python `"{:.2%}".format(x)` modelled over ℚ. -/
def fmtPercent2 (q : ℚ) : String :=
  let n := roundHalfEven (q * 10000)
  let core := fun (m : ℤ) =>
    toString (m / 100) ++ "." ++ (if m % 100 < 10 then "0" else "") ++ toString (m % 100) ++ "%"
  if n < 0 then "-" ++ core (-n) else core n

/-- The first recommendation string of `FailureAnalyzer._generate_recommendations`,
built from the cited mode and its failure rate. -/
def focusRec (m : FailureModeName) (r : ℚ) : String :=
  "Focus on improving " ++ sqChar ++ displaySpaces m ++ sqChar ++ " - it" ++ sqChar
    ++ "s the most common failure mode (" ++ fmtPercent1 r ++ " failure rate)"

/-- Dict lookup on the pattern groups (`patterns["No Failures"]`). -/
def groupLookup (d : List (String × List Nat)) (k : String) : Option (List Nat) :=
  (d.find? (fun p => p.1 = k)).map (fun p => p.2)

/-- `FailureAnalyzer._generate_recommendations`. `most_common_failures` always
has three entries (take 3 of the six sorted modes), so indexing `[0]` is
modelled by `headD`. -/
def generate_recommendations (summary : FailureSummary)
    (patterns : List (String × List Nat)) : List String :=
  let most_common := summary.most_common_failures.headD FailureModeName.incomplete_answer
  let r1 := [focusRec most_common (summary.failure_mode_rates most_common)]
  let r2 :=
    match groupLookup patterns "No Failures" with
    | some idxs =>
      if idxs.length > 0 then
        ["Good news: " ++ fmtPercent1 ((idxs.length : ℚ) / (summary.total_samples : ℚ))
          ++ " of samples have no failures - analyze these for best practices"]
      else []
    | none => []
  let r3 :=
    if summary.overall_failure_rate > 1/2 then
      ["High overall failure rate suggests need for better prompt engineering or model fine-tuning"]
    else []
  let r4 :=
    if summary.target_met = false then
      ["Final failure rate must be < " ++ fmtPercent2 summary.target_failure_rate
        ++ " to meet project success criterion. Run correction phase and re-label, or improve prompts."]
    else []
  r1 ++ r2 ++ r3 ++ r4

/-- `FailureAnalyzer` instance state: the dataframe captured at construction. -/
structure FailureAnalyzer where
  df : List JudgeRow

/-- Method call `analyzer.generate_failure_summary()` in state-passing form:
the summary is computed from `self.df`, which the method does not mutate. -/
def FailureAnalyzer.summaryM (a : FailureAnalyzer) : FailureAnalyzer × FailureSummary :=
  (a, generate_failure_summary a.df)

/-- Method call `analyzer.identify_failure_patterns()` in state-passing form. -/
def FailureAnalyzer.patternsM (a : FailureAnalyzer) :
    FailureAnalyzer × List (String × List Nat) :=
  (a, identify_failure_patterns a.df)

/-! ## `src/diy_repair/correction_phase.py` -/

/-- A failed Q&A row from `failure_labeled_data` as consumed by
`correct_single_qa`. Only `trace_id` flows into the returned result; the QA
fields and mode flags feed the correction prompt text, which the gateway
abstraction absorbs. -/
structure FailedQA where
  trace_id : String
deriving Repr, DecidableEq

/-- The result dict built by `correct_single_qa`. -/
structure CorrectionResult where
  trace_id : String
  qa_pair : Option DIYRepairQA
  raw_response : String
  is_valid : Bool
  validation_errors : List String
  generation_timestamp : String
deriving Repr, DecidableEq

/-- Outcome of the corrector gateway call: `.error e` when
`chat.completions.create` raises, `.ok (content, parsed)` when it returns
message content `content` whose stripped text `json.loads`-parses to
`parsed` (the parse outcome is environment-supplied, as in
`validate_json_structure`). -/
abbrev CorrectionGatewayOutcome := Except String (String × Except String RawQA)

/-- `DIYRepairCorrector.correct_single_qa`. The body has NO try/except: a
gateway exception propagates to the caller, modelled by the `Except` result. -/
def correct_single_qa (gw : CorrectionGatewayOutcome) (now : String)
    (failed : FailedQA) : Except String CorrectionResult :=
  match gw with
  | .error e => .error e
  | .ok (content, parsed) =>
    let raw := pyStrip content
    let r := validate_json_structure parsed
    .ok { trace_id := failed.trace_id
          qa_pair := r.2.1
          raw_response := raw
          is_valid := r.1
          validation_errors := r.2.2
          generation_timestamp := now }

/-- `DIYRepairCorrector.correct_batch`: sequential loop with no exception
handling, so the first propagating exception aborts the whole batch. -/
def correct_batch (gw : FailedQA → CorrectionGatewayOutcome) (now : String) :
    List FailedQA → Except String (List CorrectionResult)
  | [] => .ok []
  | f :: rest =>
    match correct_single_qa (gw f) now f with
    | .error e => .error e
    | .ok r =>
      match correct_batch gw now rest with
      | .error e => .error e
      | .ok rs => .ok (r :: rs)

/-! ## `src/scripts/merge_corrected_qa.py` (merge-back protocol) -/

/-- One record of `structurally_valid_qa_pairs.json` (QA fields plus
`trace_id`), the shape `merge` reads and writes. -/
structure MergeRec where
  trace_id : String
  qa : DIYRepairQA
deriving Repr, DecidableEq

/-- One record of `failure_labeled_data.json` as read by the merge script
(only `trace_id` and `overall_failure` are consulted). -/
structure JudgeRowM where
  trace_id : String
  overall_failure : ℤ
deriving Repr, DecidableEq

/-- One record of `corrected_qa_pairs.json` as read by the merge script. -/
structure CorrectionRec where
  trace_id : String
  is_valid : Bool
  qa_pair : Option DIYRepairQA
deriving Repr, DecidableEq

/-- `failed_ids = {r["trace_id"] for r in failure_labeled if r.get("overall_failure") == 1}`;
the set is modelled by the list of qualifying ids (only membership is used). -/
def failed_ids (J : List JudgeRowM) : List String :=
  (J.filter (fun r => r.overall_failure = 1)).map (fun r => r.trace_id)

/-- One iteration of the `corrected_by_id` loop: insert
`{**r["qa_pair"], "trace_id": tid}` under key `tid` when `tid` is truthy,
`is_valid` is truthy and `qa_pair` is non-null. The dict is modelled by its
lookup function (it is only ever indexed by key, never iterated). -/
def corrStep (d : String → Option MergeRec) (r : CorrectionRec) :
    String → Option MergeRec :=
  match r.qa_pair with
  | some qa =>
    if r.trace_id ≠ "" ∧ r.is_valid = true then
      fun k => if k = r.trace_id then some ⟨r.trace_id, qa⟩ else d k
    else d
  | none => d

/-- The `corrected_by_id` loop over an initial dict. -/
def corrAux (C : List CorrectionRec) (d : String → Option MergeRec) :
    String → Option MergeRec :=
  C.foldl corrStep d

/-- `corrected_by_id` built from the empty dict. -/
def corrected_by_id (C : List CorrectionRec) : String → Option MergeRec :=
  corrAux C (fun _ => none)

/-- The merge loop of `scripts/merge_corrected_qa.main` (lines 41-54): pure
keyed substitution over the valid-record list. -/
def merge_records (V : List MergeRec) (J : List JudgeRowM) (C : List CorrectionRec) :
    List MergeRec :=
  let failed := failed_ids J
  let d := corrected_by_id C
  V.map (fun rec =>
    if rec.trace_id ∈ failed then
      match d rec.trace_id with
      | some v => v
      | none => rec
    else rec)

/-! ## Helper lemmas about the pydantic model -/

theorem validate_ok_iff (d : RawQA) (qa : DIYRepairQA) :
    validate_json_structure (.ok d) = (true, some qa, []) ↔ mkDIYRepairQA d = .ok qa := by
  cases hmk : mkDIYRepairQA d with
  | ok qa2 => simp [validate_json_structure, hmk]
  | error e => simp [validate_json_structure, hmk]

theorem pydanticErrors_nil_of_ok {d : RawQA} {qa : DIYRepairQA}
    (h : mkDIYRepairQA d = .ok qa) : pydanticErrors d = [] := by
  cases he : pydanticErrors d with
  | nil => rfl
  | cons e es => simp [mkDIYRepairQA, he] at h

theorem mk_ok_fields {d : RawQA} {qa : DIYRepairQA} (h : mkDIYRepairQA d = .ok qa) :
    qa = { question := pyStrip d.question
           answer := pyStrip d.answer
           equipment_problem := pyStrip d.equipment_problem
           tools_required := d.tools_required.map pyStrip
           steps := d.steps.map pyStrip
           safety_info := pyStrip d.safety_info
           tips := pyStrip d.tips } := by
  have he := pydanticErrors_nil_of_ok h
  simp [mkDIYRepairQA, he] at h
  exact h.symm

theorem strFieldErrors_nil {name v : String} {mn mx : Nat}
    (h : strFieldErrors name v mn mx = []) :
    mn ≤ v.length ∧ v.length ≤ mx ∧ pyStrip v ≠ "" := by
  unfold strFieldErrors at h
  split_ifs at h with h1 h2 h3
  exact ⟨Nat.le_of_not_lt h1, Nat.le_of_not_lt h2, h3⟩

theorem listFieldErrors_nil {name : String} {v : List String} {mn mx : Nat} {msg : String}
    (h : listFieldErrors name v mn mx msg = []) :
    mn ≤ v.length ∧ v.length ≤ mx ∧ ∀ t ∈ v, pyStrip t ≠ "" := by
  unfold listFieldErrors at h
  split_ifs at h with h1 h2 h3
  refine ⟨Nat.le_of_not_lt h1, Nat.le_of_not_lt h2, ?_⟩
  intro t ht
  simp only [List.any_eq_true, not_exists, not_and] at h3
  have := h3 t ht
  simpa using this

theorem pydanticErrors_nil_parts {d : RawQA} (h : pydanticErrors d = []) :
    strFieldErrors "question" d.question 10 500 = []
    ∧ strFieldErrors "answer" d.answer 20 2000 = []
    ∧ strFieldErrors "equipment_problem" d.equipment_problem 5 200 = []
    ∧ listFieldErrors "tools_required" d.tools_required 1 15 "Tools cannot be empty strings" = []
    ∧ listFieldErrors "steps" d.steps 2 20 "Steps cannot be empty strings" = []
    ∧ strFieldErrors "safety_info" d.safety_info 10 500 = []
    ∧ strFieldErrors "tips" d.tips 10 500 = [] := by
  unfold pydanticErrors at h
  simp only [List.append_eq_nil] at h
  tauto

/-! ## Concrete sample records used by witnesses and counterexamples -/

/-- A fully well-formed JSON object for the schema. -/
def sampleRawQA : RawQA :=
  { question := "How can I fix a leaky kitchen faucet?"
    answer := "Turn off the water, disassemble the handle, replace the worn washer, and reassemble."
    equipment_problem := "Leaky kitchen faucet"
    tools_required := ["adjustable wrench", "screwdriver"]
    steps := ["Turn off water", "Replace washer", "Reassemble and test"]
    safety_info := "Turn off the water supply before starting."
    tips := "Take a photo before disassembly for reference." }

/-- The pydantic instance `DIYRepairQA(**sampleRawQA)` constructs. -/
def sampleQA : DIYRepairQA :=
  { question := "How can I fix a leaky kitchen faucet?"
    answer := "Turn off the water, disassemble the handle, replace the worn washer, and reassemble."
    equipment_problem := "Leaky kitchen faucet"
    tools_required := ["adjustable wrench", "screwdriver"]
    steps := ["Turn off water", "Replace washer", "Reassemble and test"]
    safety_info := "Turn off the water supply before starting."
    tips := "Take a photo before disassembly for reference." }

/-- A JSON object violating exactly one constraint (question below min length). -/
def singleBadRawQA : RawQA := { sampleRawQA with question := "short" }

/-- A JSON object violating two independent constraints (question and answer
both below their min lengths). -/
def doubleBadRawQA : RawQA := { sampleRawQA with question := "short", answer := "tiny" }

/-- A JSON object whose question has raw length 10 (passing `min_length=10`)
but trimmed length 9: the trailing space is stripped by the field validator
after the length constraint has already been checked. -/
def paddedRawQA : RawQA := { sampleRawQA with question := "Fix sink? " }

/-- The pydantic instance constructed from `paddedRawQA`: its stored question
is the stripped 9-character text. -/
def paddedQA : DIYRepairQA := { sampleQA with question := "Fix sink?" }

/-! ## Claims -/

/-- Claim C2: Judge scoring is binary-closed and conservative. For every
gateway outcome, `evaluate_single_failure_mode` returns a score in {0,1}; an
exception yields score 1 with `Error: <text>` as the raw response; an
unparseable response yields 1; a parsed integer outside {0,1} yields 1. The
function is total, so no exception propagates. -/
theorem C2_judge_binary_closed (gw : GatewayOutcome) :
    ((evaluate_single_failure_mode gw).1 = 0 ∨ (evaluate_single_failure_mode gw).1 = 1)
    ∧ (∀ e, gw = .error e → evaluate_single_failure_mode gw = (1, "Error: " ++ e))
    ∧ (∀ content, gw = .ok content → pyParseInt (pyStrip content) = none →
        (evaluate_single_failure_mode gw).1 = 1)
    ∧ (∀ content n, gw = .ok content → pyParseInt (pyStrip content) = some n →
        n ≠ 0 → n ≠ 1 → (evaluate_single_failure_mode gw).1 = 1) := by
  refine ⟨?_, ?_, ?_, ?_⟩
  · cases gw with
    | error e => exact Or.inr rfl
    | ok content =>
      cases hp : pyParseInt (pyStrip content) with
      | none => simp [evaluate_single_failure_mode, hp]
      | some n =>
        by_cases h01 : n = 0 ∨ n = 1
        · rcases h01 with h0 | h1
          · subst h0; simp [evaluate_single_failure_mode, hp]
          · subst h1; simp [evaluate_single_failure_mode, hp]
        · simp [evaluate_single_failure_mode, hp, h01]
  · intro e he; subst he; rfl
  · intro content hc hp; subst hc; simp [evaluate_single_failure_mode, hp]
  · intro content n hc hp h0 h1; subst hc
    simp [evaluate_single_failure_mode, hp, h0, h1]

/-- Witness for C2 at concrete gateway outcomes. -/
theorem C2_judge_binary_closed_witness :
    evaluate_single_failure_mode (Except.error "gateway timeout")
      = (1, "Error: " ++ "gateway timeout")
    ∧ (evaluate_single_failure_mode (Except.ok "maybe 1")).1 = 1
    ∧ (evaluate_single_failure_mode (Except.ok "2")).1 = 1 :=
  ⟨(C2_judge_binary_closed (Except.error "gateway timeout")).2.1 "gateway timeout" rfl,
   (C2_judge_binary_closed (Except.ok "maybe 1")).2.2.1 "maybe 1" rfl (by decide),
   (C2_judge_binary_closed (Except.ok "2")).2.2.2 "2" 2 rfl (by decide)
     (by decide) (by decide)⟩

/-- Claim C3: for every record produced by `evaluate_qa_pair`, `failure_count`
equals the sum of the six per-mode scores, and `overall_failure` is 1 iff
`failure_count > 0` (equivalently, 0 iff all six mode scores are 0). -/
theorem C3_failure_count_aggregation (gateway : FailureModeName → GatewayOutcome)
    (qa : DIYRepairQA) (tid : String) :
    (evaluate_qa_pair gateway qa tid).failure_count
        = (FAILURE_MODE_NAMES.map (evaluate_qa_pair gateway qa tid).scores).sum
    ∧ ((evaluate_qa_pair gateway qa tid).overall_failure = 1
        ↔ (evaluate_qa_pair gateway qa tid).failure_count > 0)
    ∧ ((evaluate_qa_pair gateway qa tid).overall_failure = 0
        ↔ ∀ m ∈ FAILURE_MODE_NAMES, (evaluate_qa_pair gateway qa tid).scores m = 0) := by
  have hoverall : (evaluate_qa_pair gateway qa tid).overall_failure
      = if (evaluate_qa_pair gateway qa tid).failure_count > 0 then 1 else 0 := rfl
  refine ⟨rfl, ?_, ?_⟩
  · rw [hoverall]
    split_ifs with h <;> simp [h]
  · rw [hoverall]
    have hz : ((evaluate_qa_pair gateway qa tid).failure_count = 0)
        ↔ ∀ m ∈ FAILURE_MODE_NAMES, (evaluate_qa_pair gateway qa tid).scores m = 0 := by
      rw [show (evaluate_qa_pair gateway qa tid).failure_count
          = (FAILURE_MODE_NAMES.map (evaluate_qa_pair gateway qa tid).scores).sum from rfl,
        List.sum_eq_zero_iff]
      simp
    rw [← hz]
    split_ifs with h <;> simp [h] <;> omega

/-- Witness for C3 at a concrete (stubbed) gateway. -/
theorem C3_failure_count_aggregation_witness :
    (evaluate_qa_pair (fun _ => Except.ok "0") sampleQA "t1").failure_count
        = (FAILURE_MODE_NAMES.map
            (evaluate_qa_pair (fun _ => Except.ok "0") sampleQA "t1").scores).sum
    ∧ ((evaluate_qa_pair (fun _ => Except.ok "0") sampleQA "t1").overall_failure = 1
        ↔ (evaluate_qa_pair (fun _ => Except.ok "0") sampleQA "t1").failure_count > 0)
    ∧ ((evaluate_qa_pair (fun _ => Except.ok "0") sampleQA "t1").overall_failure = 0
        ↔ ∀ m ∈ FAILURE_MODE_NAMES,
            (evaluate_qa_pair (fun _ => Except.ok "0") sampleQA "t1").scores m = 0) :=
  C3_failure_count_aggregation (fun _ => Except.ok "0") sampleQA "t1"

/-- Claim C7: analyzer target comparison is strict. For every non-empty
record set, `target_met` is true iff the overall failure rate is strictly
below `TARGET_FAILURE_RATE`; a rate equal to or above the target yields
`target_met = false`. (Pandas yields NaN on an empty dataframe, hence the
non-emptiness hypothesis.) -/
theorem C7_target_met_strict (df : List JudgeRow) (_hne : df ≠ []) :
    ((generate_failure_summary df).target_met = true
      ↔ (generate_failure_summary df).overall_failure_rate < TARGET_FAILURE_RATE)
    ∧ ((generate_failure_summary df).overall_failure_rate = TARGET_FAILURE_RATE →
        (generate_failure_summary df).target_met = false)
    ∧ (TARGET_FAILURE_RATE ≤ (generate_failure_summary df).overall_failure_rate →
        (generate_failure_summary df).target_met = false) := by
  have hm : (generate_failure_summary df).target_met
      = decide ((generate_failure_summary df).overall_failure_rate < TARGET_FAILURE_RATE) := rfl
  refine ⟨?_, ?_, ?_⟩
  · simp [hm]
  · intro he
    simp [hm, he]
  · intro hle
    simp only [hm, decide_eq_false_iff_not, not_lt]
    exact hle

/-- Witness for C7 on a concrete one-row record set. -/
theorem C7_target_met_strict_witness :
    ((generate_failure_summary [⟨1, fun _ => 1⟩]).target_met = true
      ↔ (generate_failure_summary [⟨1, fun _ => 1⟩]).overall_failure_rate < TARGET_FAILURE_RATE)
    ∧ ((generate_failure_summary [⟨1, fun _ => 1⟩]).overall_failure_rate = TARGET_FAILURE_RATE →
        (generate_failure_summary [⟨1, fun _ => 1⟩]).target_met = false)
    ∧ (TARGET_FAILURE_RATE ≤ (generate_failure_summary [⟨1, fun _ => 1⟩]).overall_failure_rate →
        (generate_failure_summary [⟨1, fun _ => 1⟩]).target_met = false) :=
  C7_target_met_strict [⟨1, fun _ => 1⟩] (by simp)

/-- Claim C9: analyzer determinism/idempotence. Summary and pattern results
are pure functions of the captured dataframe: calling a method twice in
sequence returns the same value, no method mutates the analyzer state, and
analyzers over equal dataframes agree. -/
theorem C9_analyzer_pure (a : FailureAnalyzer) :
    ((a.summaryM).1.summaryM).2 = (a.summaryM).2
    ∧ ((a.patternsM).1.patternsM).2 = (a.patternsM).2
    ∧ ((a.summaryM).1.patternsM).2 = (a.patternsM).2
    ∧ (a.summaryM).1 = a
    ∧ (a.patternsM).1 = a
    ∧ (∀ b : FailureAnalyzer, a.df = b.df →
        (a.summaryM).2 = (b.summaryM).2 ∧ (a.patternsM).2 = (b.patternsM).2) := by
  refine ⟨rfl, rfl, rfl, rfl, rfl, ?_⟩
  intro b hdf
  constructor
  · show generate_failure_summary a.df = generate_failure_summary b.df
    rw [hdf]
  · show identify_failure_patterns a.df = identify_failure_patterns b.df
    rw [hdf]

/-- Witness for C9 on a concrete analyzer. -/
theorem C9_analyzer_pure_witness :
    ((FailureAnalyzer.mk [⟨0, fun _ => 0⟩]).summaryM.1.summaryM).2
      = ((FailureAnalyzer.mk [⟨0, fun _ => 0⟩]).summaryM).2
    ∧ ((FailureAnalyzer.mk [⟨0, fun _ => 0⟩]).summaryM).2
      = ((FailureAnalyzer.mk [⟨0, fun _ => 0⟩]).summaryM).2 := by
  have h := C9_analyzer_pure (FailureAnalyzer.mk [⟨0, fun _ => 0⟩])
  exact ⟨h.1, (h.2.2.2.2.2 (FailureAnalyzer.mk [⟨0, fun _ => 0⟩]) rfl).1⟩

/-- Counterexample to Claim C4 as stated: `doubleBadRawQA` parses as JSON and
violates two independent constraints (question below `min_length=10` and
answer below `min_length=20`), yet `validate_json_structure` returns an error
list of length 1 (pydantic aggregates all field failures into a single raised
exception, and the code appends exactly one string), not ≥ 2. -/
theorem C4_counterexample :
    doubleBadRawQA.question.length < 10
    ∧ doubleBadRawQA.answer.length < 20
    ∧ (pydanticErrors doubleBadRawQA).length = 2
    ∧ (validate_json_structure (.ok doubleBadRawQA)).1 = false
    ∧ ((validate_json_structure (.ok doubleBadRawQA)).2.2).length = 1
    ∧ ¬ 2 ≤ ((validate_json_structure (.ok doubleBadRawQA)).2.2).length := by
  decide

/-- Claim C4 (amended): for every JSON-parsed input violating at least one
QARecord field constraint, `validate_json_structure` returns `is_valid=false`,
no record, and an error list of length exactly 1 — the single string
aggregates all violated constraints, so the list never has length ≥ 2. -/
theorem C4_single_aggregated_error (d : RawQA) (h : pydanticErrors d ≠ []) :
    (validate_json_structure (.ok d)).1 = false
    ∧ (validate_json_structure (.ok d)).2.1 = none
    ∧ ((validate_json_structure (.ok d)).2.2).length = 1 := by
  cases he : pydanticErrors d with
  | nil => exact absurd he h
  | cons e es => simp [validate_json_structure, mkDIYRepairQA, he]

/-- Witness for amended C4 at a concrete invalid input. -/
theorem C4_single_aggregated_error_witness :
    (validate_json_structure (.ok singleBadRawQA)).1 = false
    ∧ (validate_json_structure (.ok singleBadRawQA)).2.1 = none
    ∧ ((validate_json_structure (.ok singleBadRawQA)).2.2).length = 1 :=
  C4_single_aggregated_error singleBadRawQA (by decide)

/-- Counterexample to Claim C5 as stated: `paddedRawQA` is accepted by the
Structural Validator (is_valid=true), but the accepted record's question,
after trimming, has length 9, below the documented min bound 10: pydantic
checks `min_length` on the raw value before the stripping validator runs. -/
theorem C5_counterexample :
    validate_json_structure (.ok paddedRawQA) = (true, some paddedQA, [])
    ∧ paddedRawQA.question.length = 10
    ∧ (pyStrip paddedQA.question).length = 9
    ∧ ¬ 10 ≤ (pyStrip paddedQA.question).length := by
  decide

/-- Claim C5 (amended): for every record accepted by the Structural Validator,
every string field after trimming is non-empty and within its documented MAX
length bound (the MIN bound is only guaranteed for the untrimmed raw value);
tools_required has 1-15 entries, none blank after trimming; steps has 2-20
entries, none blank after trimming. -/
theorem C5_accepted_record_invariant (d : RawQA) (qa : DIYRepairQA)
    (h : validate_json_structure (.ok d) = (true, some qa, [])) :
    (pyStrip qa.question ≠ "" ∧ (pyStrip qa.question).length ≤ 500)
    ∧ (pyStrip qa.answer ≠ "" ∧ (pyStrip qa.answer).length ≤ 2000)
    ∧ (pyStrip qa.equipment_problem ≠ "" ∧ (pyStrip qa.equipment_problem).length ≤ 200)
    ∧ (pyStrip qa.safety_info ≠ "" ∧ (pyStrip qa.safety_info).length ≤ 500)
    ∧ (pyStrip qa.tips ≠ "" ∧ (pyStrip qa.tips).length ≤ 500)
    ∧ (1 ≤ qa.tools_required.length ∧ qa.tools_required.length ≤ 15
        ∧ ∀ t ∈ qa.tools_required, pyStrip t ≠ "")
    ∧ (2 ≤ qa.steps.length ∧ qa.steps.length ≤ 20
        ∧ ∀ s ∈ qa.steps, pyStrip s ≠ "") := by
  have hmk : mkDIYRepairQA d = .ok qa := (validate_ok_iff d qa).mp h
  have hfields := mk_ok_fields hmk
  have hparts := pydanticErrors_nil_parts (pydanticErrors_nil_of_ok hmk)
  obtain ⟨hq, ha, he, htools, hsteps, hsafety, htips⟩ := hparts
  obtain ⟨hq1, hq2, hq3⟩ := strFieldErrors_nil hq
  obtain ⟨ha1, ha2, ha3⟩ := strFieldErrors_nil ha
  obtain ⟨he1, he2, he3⟩ := strFieldErrors_nil he
  obtain ⟨ht1, ht2, ht3⟩ := listFieldErrors_nil htools
  obtain ⟨hs1, hs2, hs3⟩ := listFieldErrors_nil hsteps
  obtain ⟨hsa1, hsa2, hsa3⟩ := strFieldErrors_nil hsafety
  obtain ⟨hti1, hti2, hti3⟩ := strFieldErrors_nil htips
  subst hfields
  refine ⟨⟨?_, ?_⟩, ⟨?_, ?_⟩, ⟨?_, ?_⟩, ⟨?_, ?_⟩, ⟨?_, ?_⟩, ⟨?_, ?_, ?_⟩, ⟨?_, ?_, ?_⟩⟩
  · exact pyStrip_ne_empty_of_self hq3
  · rw [pyStrip_idem]; exact le_trans (pyStrip_length_le _) hq2
  · exact pyStrip_ne_empty_of_self ha3
  · rw [pyStrip_idem]; exact le_trans (pyStrip_length_le _) ha2
  · exact pyStrip_ne_empty_of_self he3
  · rw [pyStrip_idem]; exact le_trans (pyStrip_length_le _) he2
  · exact pyStrip_ne_empty_of_self hsa3
  · rw [pyStrip_idem]; exact le_trans (pyStrip_length_le _) hsa2
  · exact pyStrip_ne_empty_of_self hti3
  · rw [pyStrip_idem]; exact le_trans (pyStrip_length_le _) hti2
  · simpa using ht1
  · simpa using ht2
  · intro t htm
    obtain ⟨t0, ht0, rfl⟩ := List.mem_map.mp htm
    exact pyStrip_ne_empty_of_self (ht3 t0 ht0)
  · simpa using hs1
  · simpa using hs2
  · intro s hsm
    obtain ⟨s0, hs0, rfl⟩ := List.mem_map.mp hsm
    exact pyStrip_ne_empty_of_self (hs3 s0 hs0)

/-- Witness for amended C5 at a concrete accepted record. -/
theorem C5_accepted_record_invariant_witness :
    (pyStrip sampleQA.question ≠ "" ∧ (pyStrip sampleQA.question).length ≤ 500)
    ∧ (pyStrip sampleQA.answer ≠ "" ∧ (pyStrip sampleQA.answer).length ≤ 2000)
    ∧ (pyStrip sampleQA.equipment_problem ≠ ""
        ∧ (pyStrip sampleQA.equipment_problem).length ≤ 200)
    ∧ (pyStrip sampleQA.safety_info ≠ "" ∧ (pyStrip sampleQA.safety_info).length ≤ 500)
    ∧ (pyStrip sampleQA.tips ≠ "" ∧ (pyStrip sampleQA.tips).length ≤ 500)
    ∧ (1 ≤ sampleQA.tools_required.length ∧ sampleQA.tools_required.length ≤ 15
        ∧ ∀ t ∈ sampleQA.tools_required, pyStrip t ≠ "")
    ∧ (2 ≤ sampleQA.steps.length ∧ sampleQA.steps.length ≤ 20
        ∧ ∀ s ∈ sampleQA.steps, pyStrip s ≠ "") :=
  C5_accepted_record_invariant sampleRawQA sampleQA (by decide)

/-- Claim C10: structural re-validation is redundant for model-constructed
records. Any GenerationResult with `is_valid=true` whose `qa_pair` was
constructed by the pydantic model passes every re-check of
`DIYRepairValidator.validate_structure`, which returns `(true, [])`. -/
theorem C10_revalidation_redundant (d : RawQA) (qa : DIYRepairQA)
    (tid raw ts : String) (errs : List String) (h : mkDIYRepairQA d = .ok qa) :
    validate_structure
      { trace_id := tid, qa_pair := some qa, raw_response := raw,
        is_valid := true, validation_errors := errs, generation_timestamp := ts }
      = (true, []) := by
  have hfields := mk_ok_fields h
  have hparts := pydanticErrors_nil_parts (pydanticErrors_nil_of_ok h)
  obtain ⟨hq, ha, he, htools, hsteps, hsafety, htips⟩ := hparts
  obtain ⟨-, -, hq3⟩ := strFieldErrors_nil hq
  obtain ⟨-, -, ha3⟩ := strFieldErrors_nil ha
  obtain ⟨-, -, he3⟩ := strFieldErrors_nil he
  obtain ⟨ht1, -, ht3⟩ := listFieldErrors_nil htools
  obtain ⟨hs1, -, hs3⟩ := listFieldErrors_nil hsteps
  obtain ⟨-, -, hsa3⟩ := strFieldErrors_nil hsafety
  obtain ⟨-, -, hti3⟩ := strFieldErrors_nil htips
  subst hfields
  have htne : d.tools_required.map pyStrip ≠ [] := by
    simp only [ne_eq, List.map_eq_nil_iff]
    intro h0
    rw [h0] at ht1
    simp at ht1
  have hsne : d.steps.map pyStrip ≠ [] := by
    simp only [ne_eq, List.map_eq_nil_iff]
    intro h0
    rw [h0] at hs1
    simp at hs1
  have htblank : (d.tools_required.map pyStrip).any (fun t => pyStrip t = "") = false := by
    simp only [List.any_eq_false, List.mem_map, decide_eq_true_eq]
    rintro t ⟨t0, ht0, rfl⟩
    exact pyStrip_ne_empty_of_self (ht3 t0 ht0)
  have hsblank : (d.steps.map pyStrip).any (fun s => pyStrip s = "") = false := by
    simp only [List.any_eq_false, List.mem_map, decide_eq_true_eq]
    rintro s ⟨s0, hs0, rfl⟩
    exact pyStrip_ne_empty_of_self (hs3 s0 hs0)
  simp [validate_structure, pyStrip_ne_empty_of_self hq3, pyStrip_ne_empty_of_self ha3,
    pyStrip_ne_empty_of_self he3, pyStrip_ne_empty_of_self hsa3,
    pyStrip_ne_empty_of_self hti3, htne, hsne, htblank, hsblank]

/-- Witness for C10 at a concrete model-constructed record. -/
theorem C10_revalidation_redundant_witness :
    validate_structure
      { trace_id := "t1", qa_pair := some sampleQA, raw_response := "raw",
        is_valid := true, validation_errors := [], generation_timestamp := "2026-01-01" }
      = (true, []) :=
  C10_revalidation_redundant sampleRawQA sampleQA "t1" "raw" "2026-01-01" [] rfl

/-- A stub corrector gateway that raises on trace id `t2` and answers with
unparseable JSON otherwise. -/
def failingGateway : FailedQA → CorrectionGatewayOutcome :=
  fun f => if f.trace_id = "t2" then Except.error "gateway unreachable"
           else Except.ok ("not json", Except.error "Expecting value")

/-- Counterexample to Claim C6 as stated: a gateway failure on the second
record is NOT caught inside `correct_single_qa` (its body has no try/except);
it propagates and aborts the whole batch instead of yielding a
failure-marked CorrectionResult. -/
theorem C6_counterexample :
    correct_batch failingGateway "2026-01-01" [⟨"t1"⟩, ⟨"t2"⟩]
      = Except.error "gateway unreachable" := by
  rfl

/-- Claim C6 (amended): a gateway/transport failure raised during the
correction call in `correct_single_qa` is not caught there — it propagates,
and `correct_batch` aborts at the first record whose gateway call raises.
Only structural invalidity of the correction output is converted into an
`is_valid=false` CorrectionResult on that record. -/
theorem C6_transport_error_propagates (gw : FailedQA → CorrectionGatewayOutcome)
    (now : String) (f : FailedQA) (rest : List FailedQA) (e : String) :
    (gw f = .error e →
      correct_single_qa (gw f) now f = .error e
      ∧ correct_batch gw now (f :: rest) = .error e)
    ∧ (∀ content parsed, gw f = .ok (content, parsed) →
        ∃ r, correct_single_qa (gw f) now f = .ok r
          ∧ r.trace_id = f.trace_id
          ∧ r.is_valid = (validate_json_structure parsed).1
          ∧ r.qa_pair = (validate_json_structure parsed).2.1) := by
  constructor
  · intro he
    constructor
    · rw [he]
      rfl
    · show (match correct_single_qa (gw f) now f with
        | .error e2 => Except.error e2
        | .ok r =>
          match correct_batch gw now rest with
          | .error e2 => Except.error e2
          | .ok rs => Except.ok (r :: rs)) = Except.error e
      rw [he]
      rfl
  · intro content parsed hok
    rw [hok]
    exact ⟨_, rfl, rfl, rfl, rfl⟩

/-- Witness for amended C6 at a concrete failing gateway. -/
theorem C6_transport_error_propagates_witness :
    correct_single_qa (Except.error "boom") "ts" ⟨"t1"⟩ = Except.error "boom"
    ∧ correct_batch (fun _ => Except.error "boom") "ts" [⟨"t1"⟩] = Except.error "boom" :=
  (C6_transport_error_propagates (fun _ => Except.error "boom") "ts" ⟨"t1"⟩ [] "boom").1 rfl

/-! ## Stable descending sort: head characterisation -/

theorem sortByKeyDesc_head {α β : Type} [LinearOrder β] (key : α → β) :
    ∀ l : List α, l ≠ [] →
      ∃ h t pre post, sortByKeyDesc key l = h :: t ∧ l = pre ++ h :: post
        ∧ (∀ y ∈ l, key y ≤ key h) ∧ (∀ y ∈ pre, key y < key h) := by
  intro l
  induction l with
  | nil => intro hc; exact absurd rfl hc
  | cons x rest ih =>
    intro _
    cases hr : rest with
    | nil =>
      refine ⟨x, [], [], [], ?_, by simp, ?_, by simp⟩
      · simp [sortByKeyDesc, insertByKeyDesc]
      · intro y hy
        rcases List.mem_cons.mp hy with rfl | hy2
        · exact le_refl _
        · simp at hy2
    | cons a as =>
      subst hr
      obtain ⟨h2, t2, pre2, post2, hsort2, hdecomp2, hmax2, hpre2⟩ :=
        ih (by simp)
      have hstep : sortByKeyDesc key (x :: a :: as)
          = insertByKeyDesc key x (sortByKeyDesc key (a :: as)) := rfl
      by_cases hc : key h2 ≤ key x
      · refine ⟨x, h2 :: t2, [], a :: as, ?_, by simp, ?_, by simp⟩
        · rw [hstep, hsort2]
          simp [insertByKeyDesc, hc]
        · intro y hy
          rcases List.mem_cons.mp hy with rfl | hy2
          · exact le_refl _
          · exact le_trans (hmax2 y hy2) hc
      · refine ⟨h2, insertByKeyDesc key x t2, x :: pre2, post2, ?_, ?_, ?_, ?_⟩
        · rw [hstep, hsort2]
          simp [insertByKeyDesc, hc]
        · simp [hdecomp2]
        · intro y hy
          rcases List.mem_cons.mp hy with rfl | hy2
          · exact le_of_lt (not_le.mp hc)
          · exact hmax2 y hy2
        · intro y hy
          rcases List.mem_cons.mp hy with rfl | hy2
          · exact not_le.mp hc
          · exact hpre2 y hy2

/-- Claim C8: the first recommendation cites the failure mode with the
numerically highest per-mode failure rate; when several modes tie for the
highest rate, the one earliest in the taxonomy declaration order is cited
(the decomposition `FAILURE_MODE_NAMES = pre ++ m :: post` with every mode in
`pre` strictly below `m` says exactly that `m` is the first declared
maximiser). Non-emptiness avoids pandas NaN rates. -/
theorem C8_first_recommendation (df : List JudgeRow) (_hne : df ≠ []) :
    ∃ m pre post,
      (generate_recommendations (generate_failure_summary df)
          (identify_failure_patterns df)).head?
        = some (focusRec m ((generate_failure_summary df).failure_mode_rates m))
      ∧ FAILURE_MODE_NAMES = pre ++ m :: post
      ∧ (∀ m2 ∈ FAILURE_MODE_NAMES,
          (generate_failure_summary df).failure_mode_rates m2
            ≤ (generate_failure_summary df).failure_mode_rates m)
      ∧ (∀ m2 ∈ pre,
          (generate_failure_summary df).failure_mode_rates m2
            < (generate_failure_summary df).failure_mode_rates m) := by
  obtain ⟨h, t, pre, post, hsort, hdecomp, hmax, hpre⟩ :=
    sortByKeyDesc_head (fun m => colMean (df.map (fun r => r.flags m)))
      FAILURE_MODE_NAMES (by decide)
  have hmc : (generate_failure_summary df).most_common_failures = (h :: t).take 3 := by
    show (sortByKeyDesc (fun m => colMean (df.map (fun r => r.flags m)))
        FAILURE_MODE_NAMES).take 3 = (h :: t).take 3
    rw [hsort]
  have hhd : (generate_failure_summary df).most_common_failures.headD
      FailureModeName.incomplete_answer = h := by
    rw [hmc]; rfl
  refine ⟨h, pre, post, ?_, hdecomp, hmax, hpre⟩
  show (generate_recommendations (generate_failure_summary df)
      (identify_failure_patterns df)).head? = _
  simp only [generate_recommendations, hhd]
  rw [List.cons_append]
  rfl

/-- Witness for C8: on a one-row set where every mode fails, all six rates tie
at 1, and the first declared mode `incomplete_answer` is cited. -/
theorem C8_first_recommendation_witness :
    (generate_recommendations (generate_failure_summary [⟨1, fun _ => 1⟩])
        (identify_failure_patterns [⟨1, fun _ => 1⟩])).head?
      = some (focusRec FailureModeName.incomplete_answer
          ((generate_failure_summary [⟨1, fun _ => 1⟩]).failure_mode_rates
            FailureModeName.incomplete_answer)) := by
  obtain ⟨m, pre, post, h1, h2, h3, h4⟩ :=
    C8_first_recommendation [⟨1, fun _ => 1⟩] (by simp)
  have hr : ∀ m2, (generate_failure_summary [(⟨1, fun _ => 1⟩ : JudgeRow)]).failure_mode_rates m2
      = 1 := by
    intro m2
    show colMean ([(⟨1, fun _ => 1⟩ : JudgeRow)].map (fun r => r.flags m2)) = 1
    simp [colMean]
  cases pre with
  | nil =>
    rw [List.nil_append] at h2
    simp only [FAILURE_MODE_NAMES, List.cons.injEq] at h2
    obtain ⟨hm, -⟩ := h2
    rw [← hm] at h1
    exact h1
  | cons y ys =>
    have hlt := h4 y (List.mem_cons_self y ys)
    rw [hr y, hr m] at hlt
    exact absurd hlt (lt_irrefl 1)

/-! ## Lemmas about the `corrected_by_id` dict -/

theorem corrAux_cons (c : CorrectionRec) (cs : List CorrectionRec)
    (d : String → Option MergeRec) :
    corrAux (c :: cs) d = corrAux cs (corrStep d c) := rfl

theorem corrStep_apply (d : String → Option MergeRec) (c : CorrectionRec)
    (qa : DIYRepairQA) (hqp : c.qa_pair = some qa)
    (hcond : c.trace_id ≠ "" ∧ c.is_valid = true) (k : String) :
    corrStep d c k = if k = c.trace_id then some ⟨c.trace_id, qa⟩ else d k := by
  simp only [corrStep, hqp]
  rw [if_pos hcond]

theorem corrStep_cases (d : String → Option MergeRec) (c : CorrectionRec) (k : String) :
    corrStep d c k = d k
    ∨ ∃ qa, c.qa_pair = some qa ∧ c.trace_id ≠ "" ∧ c.is_valid = true
        ∧ corrStep d c k = if k = c.trace_id then some ⟨c.trace_id, qa⟩ else d k := by
  cases hqp : c.qa_pair with
  | none => left; simp only [corrStep, hqp]
  | some qa =>
    by_cases hcond : c.trace_id ≠ "" ∧ c.is_valid = true
    · exact Or.inr ⟨qa, rfl, hcond.1, hcond.2, corrStep_apply d c qa hqp hcond k⟩
    · left
      simp only [corrStep, hqp]
      rw [if_neg hcond]

theorem corrAux_some_inv (C : List CorrectionRec) :
    ∀ (d : String → Option MergeRec) (tid : String) (v : MergeRec),
      corrAux C d tid = some v →
      (∃ c ∈ C, c.trace_id = tid ∧ c.is_valid = true ∧ c.qa_pair = some v.qa
        ∧ v.trace_id = tid)
      ∨ d tid = some v := by
  induction C with
  | nil => intro d tid v h; exact Or.inr h
  | cons c cs ih =>
    intro d tid v h
    rw [corrAux_cons] at h
    rcases ih (corrStep d c) tid v h with hex | hd
    · obtain ⟨c2, hc2, rest⟩ := hex
      exact Or.inl ⟨c2, List.mem_cons_of_mem _ hc2, rest⟩
    · rcases corrStep_cases d c tid with hskip | ⟨qa, hqp, hne, hval, hstep⟩
      · rw [hskip] at hd; exact Or.inr hd
      · rw [hstep] at hd
        by_cases hk : tid = c.trace_id
        · rw [if_pos hk] at hd
          have hv : v = ⟨c.trace_id, qa⟩ := (Option.some.inj hd).symm
          refine Or.inl ⟨c, List.mem_cons_self _ _, hk.symm, hval, ?_, ?_⟩
          · rw [hqp, hv]
          · rw [hv]; exact hk.symm
        · rw [if_neg hk] at hd; exact Or.inr hd

theorem corrStep_isSome_mono (d : String → Option MergeRec) (c : CorrectionRec)
    (tid : String) (h : (d tid).isSome) : ((corrStep d c) tid).isSome := by
  rcases corrStep_cases d c tid with hskip | ⟨qa, _, _, _, hstep⟩
  · rw [hskip]; exact h
  · rw [hstep]
    by_cases hk : tid = c.trace_id
    · rw [if_pos hk]; rfl
    · rw [if_neg hk]; exact h

theorem corrAux_isSome (C : List CorrectionRec) :
    ∀ (d : String → Option MergeRec) (tid : String), tid ≠ "" →
      ((∃ c ∈ C, c.trace_id = tid ∧ c.is_valid = true ∧ c.qa_pair ≠ none)
        ∨ (d tid).isSome) →
      (corrAux C d tid).isSome := by
  induction C with
  | nil =>
    intro d tid _ h
    rcases h with ⟨c, hc, -⟩ | hd
    · simp at hc
    · exact hd
  | cons c cs ih =>
    intro d tid hne h
    rw [corrAux_cons]
    apply ih (corrStep d c) tid hne
    rcases h with ⟨c2, hc2, h1, h2, h3⟩ | hd
    · rcases List.mem_cons.mp hc2 with rfl | hmem
      · right
        cases hqp : c2.qa_pair with
        | none => exact absurd hqp h3
        | some qa =>
          rw [corrStep_apply d c2 qa hqp ⟨by rw [h1]; exact hne, h2⟩ tid]
          rw [if_pos h1.symm]
          rfl
      · exact Or.inl ⟨c2, hmem, h1, h2, h3⟩
    · exact Or.inr (corrStep_isSome_mono d c tid hd)

theorem failed_ids_mem (J : List JudgeRowM) (tid : String) :
    tid ∈ failed_ids J ↔ ∃ j ∈ J, j.trace_id = tid ∧ j.overall_failure = 1 := by
  unfold failed_ids
  simp only [List.mem_map, List.mem_filter, decide_eq_true_eq]
  constructor
  · rintro ⟨j, ⟨hj, hf⟩, rfl⟩
    exact ⟨j, hj, rfl, hf⟩
  · rintro ⟨j, hj, rfl, hf⟩
    exact ⟨j, ⟨hj, hf⟩, rfl⟩

/-- Claim C1: merge-back correctness. For every prior valid-record list `V`
(with real, non-empty trace ids), judge set `J` and correction set `C`, the
merged output has exactly one record per record of `V`, in order, with the
same trace id at each position; position `i` carries the corrected QA content
(re-keyed with the same trace id) iff that trace id is marked
`overall_failure=1` in `J` and some correction in `C` with that trace id has
`is_valid=true` and a non-null `qa_pair`; otherwise the original record is
carried through unchanged. -/
theorem C1_merge_back_correct (V : List MergeRec) (J : List JudgeRowM)
    (C : List CorrectionRec) (hids : ∀ r ∈ V, r.trace_id ≠ "") :
    (merge_records V J C).length = V.length
    ∧ ∀ i, i < V.length →
        ∃ vi mi, V[i]? = some vi ∧ (merge_records V J C)[i]? = some mi
          ∧ mi.trace_id = vi.trace_id
          ∧ (((∃ j ∈ J, j.trace_id = vi.trace_id ∧ j.overall_failure = 1)
              ∧ (∃ c ∈ C, c.trace_id = vi.trace_id ∧ c.is_valid = true
                  ∧ c.qa_pair ≠ none)) →
              ∃ c ∈ C, c.trace_id = vi.trace_id ∧ c.is_valid = true
                ∧ c.qa_pair = some mi.qa)
          ∧ ((¬ ((∃ j ∈ J, j.trace_id = vi.trace_id ∧ j.overall_failure = 1)
              ∧ (∃ c ∈ C, c.trace_id = vi.trace_id ∧ c.is_valid = true
                  ∧ c.qa_pair ≠ none))) →
              mi = vi) := by
  constructor
  · exact List.length_map _ _
  · intro i hi
    set f : MergeRec → MergeRec := fun rec =>
      if rec.trace_id ∈ failed_ids J then
        match corrected_by_id C rec.trace_id with
        | some v => v
        | none => rec
      else rec with hf
    have hmr : merge_records V J C = V.map f := rfl
    have hv : V[i]? = some (V.get ⟨i, hi⟩) := List.getElem?_eq_getElem hi
    have hm : (merge_records V J C)[i]? = some (f (V.get ⟨i, hi⟩)) := by
      rw [hmr, List.getElem?_map, hv]
      rfl
    set vi := V.get ⟨i, hi⟩ with hvi
    have hvmem : vi ∈ V := List.get_mem V i hi
    have hvne : vi.trace_id ≠ "" := hids vi hvmem
    have hfeq : ∀ rec : MergeRec, f rec =
        if rec.trace_id ∈ failed_ids J then
          match corrected_by_id C rec.trace_id with
          | some v => v
          | none => rec
        else rec := fun _ => rfl
    refine ⟨vi, f vi, hv, hm, ?_, ?_, ?_⟩
    · -- trace id preserved at every position
      rw [hfeq]
      by_cases hfail : vi.trace_id ∈ failed_ids J
      · rw [if_pos hfail]
        cases hlook : corrected_by_id C vi.trace_id with
        | none => rfl
        | some v =>
          rcases corrAux_some_inv C _ _ _ hlook with ⟨c, -, -, -, -, hvt⟩ | habs
          · exact hvt
          · exact absurd habs (by simp)
      · rw [if_neg hfail]
    · -- replacement case
      rintro ⟨hjudge, hcorr⟩
      have hfail : vi.trace_id ∈ failed_ids J := (failed_ids_mem J _).mpr hjudge
      have hsome : (corrected_by_id C vi.trace_id).isSome :=
        corrAux_isSome C _ _ hvne (Or.inl hcorr)
      obtain ⟨v, hlook⟩ := Option.isSome_iff_exists.mp hsome
      rcases corrAux_some_inv C _ _ _ hlook with ⟨c, hcm, hct, hcv, hcq, -⟩ | habs
      · refine ⟨c, hcm, hct, hcv, ?_⟩
        rw [hcq]
        have hfv : f vi = v := by
          rw [hfeq, if_pos hfail, hlook]
        rw [hfv]
      · exact absurd habs (by simp)
    · -- carry-through case
      intro hnot
      rw [hfeq]
      by_cases hfail : vi.trace_id ∈ failed_ids J
      · have hjudge := (failed_ids_mem J _).mp hfail
        rw [if_pos hfail]
        cases hlook : corrected_by_id C vi.trace_id with
        | none => rfl
        | some v =>
          rcases corrAux_some_inv C _ _ _ hlook with ⟨c, hcm, hct, hcv, hcq, -⟩ | habs
          · exact absurd ⟨hjudge, ⟨c, hcm, hct, hcv, by rw [hcq]; simp⟩⟩ hnot
          · exact absurd habs (by simp)
      · rw [if_neg hfail]

/-- A corrected replacement record used in the merge witness. -/
def correctedQA : DIYRepairQA :=
  { sampleQA with question := "How can I fix a leaky kitchen faucet safely?" }

/-- Witness for C1 on the concrete scenario of the spec: t1 passes, t2 fails
and has a valid correction; the merge keeps t1, substitutes t2. -/
theorem C1_merge_back_correct_witness :
    (merge_records [⟨"t1", sampleQA⟩, ⟨"t2", paddedQA⟩]
        [⟨"t1", 0⟩, ⟨"t2", 1⟩] [⟨"t2", true, some correctedQA⟩]).length
      = ([⟨"t1", sampleQA⟩, ⟨"t2", paddedQA⟩] : List MergeRec).length
    ∧ (merge_records [⟨"t1", sampleQA⟩, ⟨"t2", paddedQA⟩]
        [⟨"t1", 0⟩, ⟨"t2", 1⟩] [⟨"t2", true, some correctedQA⟩])[0]?
      = some ⟨"t1", sampleQA⟩
    ∧ (merge_records [⟨"t1", sampleQA⟩, ⟨"t2", paddedQA⟩]
        [⟨"t1", 0⟩, ⟨"t2", 1⟩] [⟨"t2", true, some correctedQA⟩])[1]?
      = some ⟨"t2", correctedQA⟩ :=
  ⟨(C1_merge_back_correct [⟨"t1", sampleQA⟩, ⟨"t2", paddedQA⟩]
      [⟨"t1", 0⟩, ⟨"t2", 1⟩] [⟨"t2", true, some correctedQA⟩] (by decide)).1,
   by decide, by decide⟩
